import Mathlib

/-!
Shallow embedding of the redmerce chat client's conversation-session and
response-normalization logic (frontend `ChatPage`: `handleInitialSearch`,
`handleFollowUp`, and the context payload built for `searchProducts`) and of
the saved-items `handleSaveForLater` handler from `ProductRecommendation`.

Backend replies are parsed JSON of unknown shape; we model JSON values with
`JVal`.  JavaScript `undefined` (an absent object field) is modelled as
`JVal.jnull`: the embedded code only ever tests absent fields for truthiness
or feeds them to string fallbacks, and `undefined` and `null` behave
identically in every such position.  Numbers are modelled as integers, so
the `NaN` corner of JavaScript arithmetic does not arise.
-/

/-- A JSON value as delivered to the frontend by `response.json()`. -/
inductive JVal where
  | jnull : JVal
  | jbool : Bool → JVal
  | jnum : Int → JVal
  | jstr : String → JVal
  | jarr : List JVal → JVal
  | jobj : List (String × JVal) → JVal

/-- JavaScript truthiness of a value (`if (x)`). -/
def truthy : JVal → Bool
  | JVal.jnull => false
  | JVal.jbool b => b
  | JVal.jnum n => n != 0
  | JVal.jstr s => s != ""
  | JVal.jarr _ => true
  | JVal.jobj _ => true

/-- JavaScript `typeof x === 'string'`. -/
def isStr : JVal → Bool
  | JVal.jstr _ => true
  | _ => false

/-- JavaScript `typeof x === 'object'` (true for objects, arrays and `null`). -/
def isObjectType : JVal → Bool
  | JVal.jnull => true
  | JVal.jarr _ => true
  | JVal.jobj _ => true
  | _ => false

/-- JavaScript `Array.isArray(x)`. -/
def isArr : JVal → Bool
  | JVal.jarr _ => true
  | _ => false

/-- Property access `x.k`: field lookup on an object, `undefined` (modelled
as `jnull`) on a missing field or a non-object receiver. -/
def jget : JVal → String → JVal
  | JVal.jobj fs, k =>
    match fs.lookup k with
    | some v => v
    | none => JVal.jnull
  | _, _ => JVal.jnull

/-- JavaScript `x || fallbackString`: keep `x` when truthy, else the
(string) fallback. -/
def jstrOr (v : JVal) (fb : String) : JVal :=
  if truthy v then v else JVal.jstr fb

/-- JavaScript strict equality `a === b` on values.  Faithful for the
primitive values that actually occur as a product's `url` (strings, numbers,
booleans, `null`/`undefined`); two structurally equal objects or arrays are
distinct references in JavaScript and compare unequal, which the catch-all
also delivers. -/
def jsStrictEq : JVal → JVal → Bool
  | JVal.jnull, JVal.jnull => true
  | JVal.jbool a, JVal.jbool b => a == b
  | JVal.jnum a, JVal.jnum b => a == b
  | JVal.jstr a, JVal.jstr b => a == b
  | _, _ => false

/-- The whitespace characters stripped by JavaScript `String.prototype.trim`
(the ASCII ones; the queries at issue are ordinary text). -/
def isJsSpace (c : Char) : Bool :=
  c = ' ' || c = '\t' || c = '\n' || c = '\r' || c = '\x0B' || c = '\x0C'

/-- JavaScript `s.trim()`: strip leading and trailing whitespace. -/
def jsTrim (s : String) : String :=
  String.mk (((s.data.dropWhile isJsSpace).reverse.dropWhile isJsSpace).reverse)

/-- Escaping applied by `JSON.stringify` inside string literals (quote and
backslash; the control-character escapes never arise in the values the
theorems touch). -/
def jsonEscape (s : String) : String :=
  s.foldl
    (fun acc c =>
      acc ++ (if c = '\\' then "\\\\" else if c = '"' then "\\\"" else String.singleton c))
    ""

mutual

/-- JavaScript `JSON.stringify(x)` (the last-resort fallback of the reply
normalizer). -/
def jsonStringify : JVal → String
  | JVal.jnull => "null"
  | JVal.jbool b => if b then "true" else "false"
  | JVal.jnum n => toString n
  | JVal.jstr s => "\"" ++ jsonEscape s ++ "\""
  | JVal.jarr xs => "[" ++ jsonStringifyElems xs ++ "]"
  | JVal.jobj fs => "\x7b" ++ jsonStringifyFields fs ++ "\x7d"

/-- Comma-joined `JSON.stringify` of array elements. -/
def jsonStringifyElems : List JVal → String
  | [] => ""
  | [x] => jsonStringify x
  | x :: y :: rest => jsonStringify x ++ "," ++ jsonStringifyElems (y :: rest)

/-- Comma-joined `JSON.stringify` of object entries. -/
def jsonStringifyFields : List (String × JVal) → String
  | [] => ""
  | [kv] => "\"" ++ jsonEscape kv.1 ++ "\":" ++ jsonStringify kv.2
  | kv :: k2 :: rest =>
    ("\"" ++ jsonEscape kv.1 ++ "\":" ++ jsonStringify kv.2) ++ "," ++
      jsonStringifyFields (k2 :: rest)

end

mutual

/-- JavaScript string coercion `String(x)`, as performed by the template
literal interpolation of the error branch. -/
def interp : JVal → String
  | JVal.jnull => "null"
  | JVal.jbool b => if b then "true" else "false"
  | JVal.jnum n => toString n
  | JVal.jstr s => s
  | JVal.jarr xs => interpElems xs
  | JVal.jobj _ => "[object Object]"

/-- String coercion of one array element inside `Array.prototype.join`:
`null`/`undefined` render as the empty string there. -/
def interpElem : JVal → String
  | JVal.jnull => ""
  | JVal.jbool b => if b then "true" else "false"
  | JVal.jnum n => toString n
  | JVal.jstr s => s
  | JVal.jarr xs => interpElems xs
  | JVal.jobj _ => "[object Object]"

/-- Comma-joined string coercion of array elements. -/
def interpElems : List JVal → String
  | [] => ""
  | [x] => interpElem x
  | x :: y :: rest => interpElem x ++ "," ++ interpElems (y :: rest)

end

/-- Role tag of one chat message (`type` field in the code). -/
inductive Role where
  | user : Role
  | agent : Role
  | error : Role
deriving DecidableEq

/-- One entry of the session's message log (`chatHistory` state).  The
`timestamp` field of the code is wall-clock metadata not touched by any of
the logic embedded here and is omitted. -/
structure Message where
  role : Role
  content : JVal

/-- The stored recommendations object (`setRecommendations` payload). -/
structure Recs where
  summary : JVal
  products : JVal

/-- The `ChatPage` component state touched by the two handlers. -/
structure SessionState where
  chatHistory : List Message
  recommendations : Option Recs
  sessionError : Option String
  isProcessing : Bool

/-- The state of a freshly mounted `ChatPage`. -/
def initState : SessionState :=
  { chatHistory := [], recommendations := none, sessionError := none, isProcessing := false }

/-- One `(role, content)` pair of the outbound `chat_history`. -/
structure ChatMsgOut where
  role : String
  content : JVal

/-- The `context` object of the outbound request body. -/
structure Context where
  original_query : String
  chat_history : List ChatMsgOut
  current_products : JVal

/-- Outcome of the transport call `searchProducts`: a parsed JSON reply, or
a thrown error (network failure, or the explicit throw on a non-ok HTTP
status). -/
inductive TransportResult where
  | ok : JVal → TransportResult
  | failure : TransportResult

/-- Fallback agent text of the success and legacy branches, initial turn. -/
def initialFallbackMsg : String := "Here are your product recommendations!"

/-- Fallback summary of the success and legacy branches, initial turn. -/
def initialFallbackSum : String := "Product recommendations"

/-- Fallback agent text of the success and legacy branches, follow-up turn. -/
def followUpFallbackMsg : String := "Here are your updated recommendations!"

/-- Fallback summary of the success and legacy branches, follow-up turn. -/
def followUpFallbackSum : String := "Updated recommendations"

/-- Content of the error message appended when the initial turn's transport
call throws; also the value of the session-level error banner. -/
def initialErrorText : String :=
  "Sorry, I encountered an error while processing your request. Please try again."

/-- Content of the error message appended when a follow-up turn's transport
call throws. -/
def followUpErrorText : String := "Sorry, I encountered an error. Please try again."

/-- Last-resort content fallback applied to the agent message of the
initial turn only. -/
def initialAgentFallback : String := "I found some products that might interest you!"

/-- Guard of the first normalizer object branch:
`data.status === 'success' && data.products && Array.isArray(data.products)`. -/
def matchesSuccess (d : JVal) : Bool :=
  jsStrictEq (jget d "status") (JVal.jstr "success") && truthy (jget d "products") &&
    isArr (jget d "products")

/-- Guard of the legacy object branch:
`data.recommendations_ready && data.products`. -/
def matchesLegacy (d : JVal) : Bool :=
  truthy (jget d "recommendations_ready") && truthy (jget d "products")

/-- The reply-normalization cascade shared (up to fallback texts) by
`handleInitialSearch` and `handleFollowUp`: from one backend reply, the
`agentResponse` value and the optional new recommendations object. -/
def normalizeReply (d : JVal) (fbMsg fbSum : String) : JVal × Option Recs :=
  if isStr d then
    (d, none)
  else if truthy d && isObjectType d then
    if matchesSuccess d then
      (jstrOr (jget d "response") fbMsg,
        some { summary := jstrOr (jget d "response") fbSum, products := jget d "products" })
    else if matchesLegacy d then
      (jstrOr (jget d "message") fbMsg,
        some { summary := jstrOr (jget d "summary") fbSum, products := jget d "products" })
    else if truthy (jget d "response") then
      (jget d "response", none)
    else if truthy (jget d "error") then
      (JVal.jstr ("Sorry, I encountered an error: " ++ interp (jget d "error")), none)
    else
      (JVal.jstr (jsonStringify d), none)
  else
    (JVal.jstr "", none)

/-- The `chat_history` mapping of `handleFollowUp`'s context construction:
`role: msg.type === 'user' ? 'user' : 'assistant'` over the whole log. -/
def toChatHistory (msgs : List Message) : List ChatMsgOut :=
  msgs.map (fun m =>
    { role := if m.role = Role.user then "user" else "assistant", content := m.content })

/-- The `current_products` entry of the context:
`recommendations?.products || []`. -/
def currentProductsOf (recs : Option Recs) : JVal :=
  match recs with
  | some r => if truthy r.products then r.products else JVal.jarr []
  | none => JVal.jarr []

/-- `handleInitialSearch(query)` of `ChatPage`, with the transport outcome
passed explicitly.  Returns the settled component state together with the
context object dispatched with the request (`none` when the empty-query
guard fired and no request was sent). -/
def handleInitialSearch (query : String) (result : TransportResult)
    (s : SessionState) : SessionState × Option Context :=
  if jsTrim query = "" then
    (s, none)
  else
    let afterUser : SessionState :=
      { chatHistory := [{ role := Role.user, content := JVal.jstr query }],
        recommendations := none, sessionError := none, isProcessing := true }
    let ctx : Context :=
      { original_query := query, chat_history := [], current_products := JVal.jarr [] }
    match result with
    | TransportResult.ok d =>
      let r : JVal × Option Recs := normalizeReply d initialFallbackMsg initialFallbackSum
      let withAgent : SessionState :=
        { afterUser with
            chatHistory := afterUser.chatHistory ++
              [{ role := Role.agent, content := jstrOr r.1 initialAgentFallback }] }
      let withRecs : SessionState :=
        match r.2 with
        | some recs => { withAgent with recommendations := some recs }
        | none => withAgent
      ({ withRecs with isProcessing := false }, some ctx)
    | TransportResult.failure =>
      ({ afterUser with
          sessionError := some initialErrorText,
          chatHistory := afterUser.chatHistory ++
            [{ role := Role.error, content := JVal.jstr initialErrorText }],
          isProcessing := false }, some ctx)

/-- `handleFollowUp(message)` of `ChatPage`, with the transport outcome
passed explicitly.  `initialQuery` is the component's `initialQuery`
binding.  The context is built from the closure's `chatHistory` and
`recommendations` — the state as it stood when the handler was created,
i.e. before this turn's user message was appended.  Returns the settled
state and the dispatched context (`none` when the empty-message guard
fired). -/
def handleFollowUp (initialQuery message : String) (result : TransportResult)
    (s : SessionState) : SessionState × Option Context :=
  if jsTrim message = "" then
    (s, none)
  else
    let s1 : SessionState :=
      { s with
          chatHistory := s.chatHistory ++ [{ role := Role.user, content := JVal.jstr message }],
          isProcessing := true }
    let ctx : Context :=
      { original_query := initialQuery,
        chat_history := toChatHistory s.chatHistory,
        current_products := currentProductsOf s.recommendations }
    match result with
    | TransportResult.ok d =>
      let r : JVal × Option Recs := normalizeReply d followUpFallbackMsg followUpFallbackSum
      let withAgent : SessionState :=
        { s1 with chatHistory := s1.chatHistory ++ [{ role := Role.agent, content := r.1 }] }
      let withRecs : SessionState :=
        match r.2 with
        | some recs => { withAgent with recommendations := some recs }
        | none => withAgent
      ({ withRecs with isProcessing := false }, some ctx)
    | TransportResult.failure =>
      ({ s1 with
          chatHistory := s1.chatHistory ++
            [{ role := Role.error, content := JVal.jstr followUpErrorText }],
          isProcessing := false }, some ctx)

/-- Run a list of follow-up turns (message and transport outcome each). -/
def runFollowUps (initialQuery : String) (s : SessionState) :
    List (String × TransportResult) → SessionState
  | [] => s
  | (m, r) :: rest => runFollowUps initialQuery (handleFollowUp initialQuery m r s).1 rest

/-- A whole session: the initial search on a fresh `ChatPage` state,
followed by the given follow-up turns. -/
def runSession (initialQuery : String) (first : TransportResult)
    (rest : List (String × TransportResult)) : SessionState :=
  runFollowUps initialQuery (handleInitialSearch initialQuery first initState).1 rest

/-- `handleSaveForLater(product)` of `ProductRecommendation`, acting on the
parsed `savedItems` list: a no-op when some saved item's `url` is
strictly equal to the product's `url`, otherwise a push. -/
def handleSaveForLater (saved : List JVal) (product : JVal) : List JVal :=
  if saved.any (fun item => jsStrictEq (jget item "url") (jget product "url")) then
    saved
  else
    saved ++ [product]

/-- Modelled from the spec (Conversation Context, `history`): the outbound
history the specification prescribes — map `agent` to `assistant` and drop
`error` entries.  Stated only to be compared against the code's
`toChatHistory`. -/
def specChatHistory (msgs : List Message) : List ChatMsgOut :=
  (msgs.filter (fun m => !(m.role = Role.error))).map (fun m =>
    { role := if m.role = Role.user then "user" else "assistant", content := m.content })

/-- Helper: the saved-items membership test of `handleSaveForLater`. -/
def hasSavedUrl (saved : List JVal) (product : JVal) : Bool :=
  saved.any (fun item => jsStrictEq (jget item "url") (jget product "url"))

/-- C9: `handleSaveForLater` leaves the list unchanged when some saved item
has the product's `url`, otherwise appends the product; consequently adding
the same product twice equals adding it once.  The hypothesis `hurl` says
the product's `url` is strictly equal to itself, which holds exactly for
primitive url values (strings, numbers, booleans, absent) — the values the
data model allows for `url`. -/
theorem C9_save_add (saved : List JVal) (p : JVal)
    (hurl : jsStrictEq (jget p "url") (jget p "url") = true) :
    (hasSavedUrl saved p = true → handleSaveForLater saved p = saved) ∧
    (hasSavedUrl saved p = false → handleSaveForLater saved p = saved ++ [p]) ∧
    handleSaveForLater (handleSaveForLater saved p) p = handleSaveForLater saved p := by
  have he : ∀ l : List JVal,
      handleSaveForLater l p = if hasSavedUrl l p then l else l ++ [p] := fun l => rfl
  have hT : ∀ l : List JVal, hasSavedUrl l p = true → handleSaveForLater l p = l := by
    intro l h
    rw [he l, h]
    rfl
  have hF : ∀ l : List JVal, hasSavedUrl l p = false → handleSaveForLater l p = l ++ [p] := by
    intro l h
    rw [he l, h]
    rfl
  refine ⟨hT saved, hF saved, ?_⟩
  cases hcase : hasSavedUrl saved p with
  | true => rw [hT saved hcase, hT saved hcase]
  | false =>
    rw [hF saved hcase]
    apply hT
    simp only [hasSavedUrl, List.any_append, List.any_cons, List.any_nil, Bool.or_false,
      hurl, Bool.or_true]

/-- C9 witness: adding a concrete product to the empty list twice equals
adding it once. -/
theorem C9_save_add_witness :
    handleSaveForLater (handleSaveForLater [] (JVal.jobj [("url", JVal.jstr "u1")]))
        (JVal.jobj [("url", JVal.jstr "u1")]) =
      handleSaveForLater [] (JVal.jobj [("url", JVal.jstr "u1")]) :=
  (C9_save_add [] (JVal.jobj [("url", JVal.jstr "u1")]) (by decide)).2.2

/-- C5: a settled turn whose normalized result carries no products leaves
the displayed product set exactly as it stood before the turn: a follow-up
reply with no products preserves `recommendations`, and the initial turn of
a fresh session (whose state starts with no recommendations) likewise ends
with none. -/
theorem C5_products_preserved (s : SessionState) (q msg : String) (d : JVal)
    (hq : jsTrim q ≠ "") (hmsg : jsTrim msg ≠ "")
    (hfn : (normalizeReply d followUpFallbackMsg followUpFallbackSum).2 = none)
    (hin : (normalizeReply d initialFallbackMsg initialFallbackSum).2 = none) :
    ((handleFollowUp q msg (TransportResult.ok d) s).1).recommendations = s.recommendations ∧
    ((handleInitialSearch q (TransportResult.ok d) initState).1).recommendations =
      initState.recommendations := by
  constructor
  · simp [handleFollowUp, hmsg, hfn]
  · simp [handleInitialSearch, hq, hin, initState]

/-- C5 witness: a concrete conversational reply (no products) leaves a
concrete non-empty product set untouched on a follow-up, and the initial
turn of a fresh session with the same reply ends with no products. -/
theorem C5_products_preserved_witness :
    ((handleFollowUp "buy a TV" "cheaper" (TransportResult.ok (JVal.jobj [("response", JVal.jstr "ok")]))
        { chatHistory := [], recommendations := some { summary := JVal.jstr "s", products := JVal.jarr [JVal.jobj [("name", JVal.jstr "TV")]] },
          sessionError := none, isProcessing := false }).1).recommendations =
      ({ chatHistory := [], recommendations := some { summary := JVal.jstr "s", products := JVal.jarr [JVal.jobj [("name", JVal.jstr "TV")]] },
         sessionError := none, isProcessing := false } : SessionState).recommendations ∧
    ((handleInitialSearch "buy a TV" (TransportResult.ok (JVal.jobj [("response", JVal.jstr "ok")])) initState).1).recommendations =
      initState.recommendations :=
  C5_products_preserved _ "buy a TV" "cheaper" _ (by decide) (by decide) rfl rfl

/-- C10: a backend reply that is neither a string nor a truthy object
(numbers, booleans, JSON `null`) normalizes to no products and an empty
intermediate message; the initial turn then appends an agent message with
the fixed fallback content, while a follow-up turn appends an agent message
whose content is the empty string. -/
theorem C10_nonobject_reply (d : JVal) (q msg : String) (s t : SessionState)
    (hq : jsTrim q ≠ "") (hmsg : jsTrim msg ≠ "")
    (hstr : isStr d = false) (hno : (truthy d && isObjectType d) = false) :
    normalizeReply d initialFallbackMsg initialFallbackSum = (JVal.jstr "", none) ∧
    normalizeReply d followUpFallbackMsg followUpFallbackSum = (JVal.jstr "", none) ∧
    ((handleInitialSearch q (TransportResult.ok d) s).1).chatHistory =
      [{ role := Role.user, content := JVal.jstr q },
       { role := Role.agent, content := JVal.jstr initialAgentFallback }] ∧
    ((handleFollowUp q msg (TransportResult.ok d) t).1).chatHistory =
      t.chatHistory ++
        [{ role := Role.user, content := JVal.jstr msg },
         { role := Role.agent, content := JVal.jstr "" }] := by
  have hn : ∀ fbM fbS : String, normalizeReply d fbM fbS = (JVal.jstr "", none) := by
    intro fbM fbS
    simp [normalizeReply, hstr, hno]
  refine ⟨hn _ _, hn _ _, ?_, ?_⟩
  · simp [handleInitialSearch, hq, hn, jstrOr, truthy, initialAgentFallback]
  · simp [handleFollowUp, hmsg, hn]

/-- C10 witness: the reply `7` (a bare number) exhibits the behavior. -/
theorem C10_nonobject_reply_witness :
    normalizeReply (JVal.jnum 7) initialFallbackMsg initialFallbackSum = (JVal.jstr "", none) ∧
    normalizeReply (JVal.jnum 7) followUpFallbackMsg followUpFallbackSum = (JVal.jstr "", none) ∧
    ((handleInitialSearch "buy a TV" (TransportResult.ok (JVal.jnum 7)) initState).1).chatHistory =
      [{ role := Role.user, content := JVal.jstr "buy a TV" },
       { role := Role.agent, content := JVal.jstr initialAgentFallback }] ∧
    ((handleFollowUp "buy a TV" "more" (TransportResult.ok (JVal.jnum 7)) initState).1).chatHistory =
      initState.chatHistory ++
        [{ role := Role.user, content := JVal.jstr "more" },
         { role := Role.agent, content := JVal.jstr "" }] :=
  C10_nonobject_reply (JVal.jnum 7) "buy a TV" "more" initState initState
    (by decide) (by decide) (by decide) (by decide)

/-- A reply matching the success-dialect guard is an object (the `status`
field comparison forces it), hence not a string and truthy. -/
theorem matchesSuccess_shape (d : JVal) (h : matchesSuccess d = true) :
    isStr d = false ∧ truthy d = true ∧ isObjectType d = true := by
  cases d <;> simp_all [matchesSuccess, jget, jsStrictEq, isStr, truthy, isObjectType]

/-- C7: a reply carrying `status: "success"`, an array `products` field and
a truthy `response` field is classified by the success dialect first:
the normalized message is `reply.response` and the products are
`reply.products`, for either turn's fallback texts. -/
theorem C7_success_response (d : JVal) (fbM fbS : String)
    (hsucc : matchesSuccess d = true)
    (hresp : truthy (jget d "response") = true) :
    normalizeReply d fbM fbS =
      (jget d "response",
        some { summary := jget d "response", products := jget d "products" }) := by
  obtain ⟨h1, h2, h3⟩ := matchesSuccess_shape d hsucc
  simp [normalizeReply, h1, h2, h3, hsucc, jstrOr, hresp]

/-- C7 witness: the spec's example reply normalizes to message `Found it`
with the one-product list. -/
theorem C7_success_response_witness :
    normalizeReply
        (JVal.jobj [("status", JVal.jstr "success"),
                    ("products", JVal.jarr [JVal.jobj [("name", JVal.jstr "TV")]]),
                    ("response", JVal.jstr "Found it")])
        initialFallbackMsg initialFallbackSum =
      (JVal.jstr "Found it",
        some { summary := JVal.jstr "Found it",
               products := JVal.jarr [JVal.jobj [("name", JVal.jstr "TV")]] }) :=
  C7_success_response _ initialFallbackMsg initialFallbackSum (by decide) (by decide)

/-- C4 counterexample: on a follow-up turn, a success-dialect reply with no
`response` field yields the agent message `Here are your updated
recommendations!`, not the claimed fixed string `Here are your product
recommendations!`. -/
theorem C4_counterexample :
    ((handleFollowUp "buy a TV" "cheaper"
        (TransportResult.ok (JVal.jobj [("status", JVal.jstr "success"),
          ("products", JVal.jarr [JVal.jobj [("name", JVal.jstr "TV")]])]))
        initState).1).chatHistory.getLast? =
      some { role := Role.agent, content := JVal.jstr followUpFallbackMsg } ∧
    followUpFallbackMsg ≠ initialFallbackMsg :=
  ⟨rfl, by decide⟩

/-- C4 amended: for a success-dialect reply whose `response` field is absent
(or otherwise falsy), the appended agent message carries the fixed fallback
`Here are your product recommendations!` on the initial turn but `Here are
your updated recommendations!` on a follow-up turn; in both cases the stored
products become `reply.products`. -/
theorem C4_amended (d : JVal) (q msg : String) (s t : SessionState)
    (hq : jsTrim q ≠ "") (hmsg : jsTrim msg ≠ "")
    (hsucc : matchesSuccess d = true)
    (hresp : truthy (jget d "response") = false) :
    ((handleInitialSearch q (TransportResult.ok d) s).1).chatHistory =
      [{ role := Role.user, content := JVal.jstr q },
       { role := Role.agent, content := JVal.jstr initialFallbackMsg }] ∧
    ((handleInitialSearch q (TransportResult.ok d) s).1).recommendations =
      some { summary := JVal.jstr initialFallbackSum, products := jget d "products" } ∧
    ((handleFollowUp q msg (TransportResult.ok d) t).1).chatHistory =
      t.chatHistory ++
        [{ role := Role.user, content := JVal.jstr msg },
         { role := Role.agent, content := JVal.jstr followUpFallbackMsg }] ∧
    ((handleFollowUp q msg (TransportResult.ok d) t).1).recommendations =
      some { summary := JVal.jstr followUpFallbackSum, products := jget d "products" } := by
  obtain ⟨h1, h2, h3⟩ := matchesSuccess_shape d hsucc
  have hni : normalizeReply d initialFallbackMsg initialFallbackSum =
      (JVal.jstr initialFallbackMsg,
        some { summary := JVal.jstr initialFallbackSum, products := jget d "products" }) := by
    simp [normalizeReply, h1, h2, h3, hsucc, jstrOr, hresp]
  have hnf : normalizeReply d followUpFallbackMsg followUpFallbackSum =
      (JVal.jstr followUpFallbackMsg,
        some { summary := JVal.jstr followUpFallbackSum, products := jget d "products" }) := by
    simp [normalizeReply, h1, h2, h3, hsucc, jstrOr, hresp]
  have hti : truthy (JVal.jstr initialFallbackMsg) = true := by decide
  refine ⟨?_, ?_, ?_, ?_⟩
  · simp [handleInitialSearch, hq, hni, jstrOr, hti]
  · simp [handleInitialSearch, hq, hni]
  · simp [handleFollowUp, hmsg, hnf]
  · simp [handleFollowUp, hmsg, hnf]

/-- C4 witness: a concrete success reply with products and no `response`,
run through both turns. -/
theorem C4_amended_witness :
    ((handleInitialSearch "buy a TV"
        (TransportResult.ok (JVal.jobj [("status", JVal.jstr "success"),
          ("products", JVal.jarr [JVal.jobj [("name", JVal.jstr "TV")]])]))
        initState).1).chatHistory =
      [{ role := Role.user, content := JVal.jstr "buy a TV" },
       { role := Role.agent, content := JVal.jstr initialFallbackMsg }] ∧
    ((handleInitialSearch "buy a TV"
        (TransportResult.ok (JVal.jobj [("status", JVal.jstr "success"),
          ("products", JVal.jarr [JVal.jobj [("name", JVal.jstr "TV")]])]))
        initState).1).recommendations =
      some { summary := JVal.jstr initialFallbackSum,
             products := JVal.jarr [JVal.jobj [("name", JVal.jstr "TV")]] } ∧
    ((handleFollowUp "buy a TV" "cheaper"
        (TransportResult.ok (JVal.jobj [("status", JVal.jstr "success"),
          ("products", JVal.jarr [JVal.jobj [("name", JVal.jstr "TV")]])]))
        initState).1).chatHistory =
      initState.chatHistory ++
        [{ role := Role.user, content := JVal.jstr "cheaper" },
         { role := Role.agent, content := JVal.jstr followUpFallbackMsg }] ∧
    ((handleFollowUp "buy a TV" "cheaper"
        (TransportResult.ok (JVal.jobj [("status", JVal.jstr "success"),
          ("products", JVal.jarr [JVal.jobj [("name", JVal.jstr "TV")]])]))
        initState).1).recommendations =
      some { summary := JVal.jstr followUpFallbackSum,
             products := JVal.jarr [JVal.jobj [("name", JVal.jstr "TV")]] } :=
  C4_amended _ "buy a TV" "cheaper" initState initState
    (by decide) (by decide) (by decide) (by decide)

/-- C6 counterexample: a reply with truthy `recommendations_ready` and a
`products` field that is a non-array (the string `"x"`) is still classified
as the legacy dialect by the code — the guard tests only truthiness — so it
does not fall through to the conversational `response` rule: the result
keeps products `"x"` (non-null) and the fallback message, not
`(message "hi", products null)` as the claim requires. -/
theorem C6_counterexample :
    isArr (jget (JVal.jobj [("recommendations_ready", JVal.jbool true),
        ("products", JVal.jstr "x"), ("response", JVal.jstr "hi")]) "products") = false ∧
    normalizeReply (JVal.jobj [("recommendations_ready", JVal.jbool true),
        ("products", JVal.jstr "x"), ("response", JVal.jstr "hi")])
        initialFallbackMsg initialFallbackSum =
      (JVal.jstr initialFallbackMsg,
        some { summary := JVal.jstr initialFallbackSum, products := JVal.jstr "x" }) ∧
    (normalizeReply (JVal.jobj [("recommendations_ready", JVal.jbool true),
        ("products", JVal.jstr "x"), ("response", JVal.jstr "hi")])
        initialFallbackMsg initialFallbackSum).2.isSome = true :=
  ⟨rfl, rfl, rfl⟩

/-- C6 amended: a reply with a truthy `recommendations_ready` flag that
does not match the success rule is classified as the legacy dialect exactly
when its `products` field is truthy (any truthy value — array or not);
when `products` is falsy the reply falls through to the later rules and
yields no products. -/
theorem C6_amended (d : JVal) (fbM fbS : String)
    (hobj : isObjectType d = true) (htr : truthy d = true)
    (hns : matchesSuccess d = false)
    (hrr : truthy (jget d "recommendations_ready") = true) :
    (truthy (jget d "products") = true →
      normalizeReply d fbM fbS =
        (jstrOr (jget d "message") fbM,
          some { summary := jstrOr (jget d "summary") fbS, products := jget d "products" })) ∧
    (truthy (jget d "products") = false →
      (normalizeReply d fbM fbS).2 = none) := by
  have hstr : isStr d = false := by cases d <;> simp_all [isStr, isObjectType]
  constructor
  · intro hp
    have hml : matchesLegacy d = true := by simp [matchesLegacy, hrr, hp]
    simp [normalizeReply, hstr, htr, hobj, hns, hml]
  · intro hp
    have hml : matchesLegacy d = false := by simp [matchesLegacy, hrr, hp]
    simp only [normalizeReply, hstr, htr, hobj, hns, hml, Bool.and_self, Bool.false_eq_true,
      if_false, if_true]
    split
    · rfl
    · split <;> rfl

/-- C6 witness: the legacy example with an actual products array, and a
falsy-products variant falling through. -/
theorem C6_amended_witness :
    (truthy (jget (JVal.jobj [("recommendations_ready", JVal.jbool true),
        ("products", JVal.jarr [JVal.jobj [("name", JVal.jstr "X")]])]) "products") = true →
      normalizeReply (JVal.jobj [("recommendations_ready", JVal.jbool true),
          ("products", JVal.jarr [JVal.jobj [("name", JVal.jstr "X")]])])
          initialFallbackMsg initialFallbackSum =
        (jstrOr (jget (JVal.jobj [("recommendations_ready", JVal.jbool true),
            ("products", JVal.jarr [JVal.jobj [("name", JVal.jstr "X")]])]) "message")
            initialFallbackMsg,
          some { summary := jstrOr (jget (JVal.jobj [("recommendations_ready", JVal.jbool true),
                   ("products", JVal.jarr [JVal.jobj [("name", JVal.jstr "X")]])]) "summary")
                   initialFallbackSum,
                 products := jget (JVal.jobj [("recommendations_ready", JVal.jbool true),
                   ("products", JVal.jarr [JVal.jobj [("name", JVal.jstr "X")]])]) "products" })) ∧
    (truthy (jget (JVal.jobj [("recommendations_ready", JVal.jbool true),
        ("products", JVal.jarr [JVal.jobj [("name", JVal.jstr "X")]])]) "products") = false →
      (normalizeReply (JVal.jobj [("recommendations_ready", JVal.jbool true),
          ("products", JVal.jarr [JVal.jobj [("name", JVal.jstr "X")]])])
          initialFallbackMsg initialFallbackSum).2 = none) :=
  C6_amended (JVal.jobj [("recommendations_ready", JVal.jbool true),
      ("products", JVal.jarr [JVal.jobj [("name", JVal.jstr "X")]])])
    initialFallbackMsg initialFallbackSum (by decide) (by decide) (by decide) (by decide)

/-- C3 counterexample: the spec's own example `{error: "rate limited"}` on a
follow-up turn is appended with role `agent`, not with the claimed `error`
role (and `agent` and `error` are distinct roles). -/
theorem C3_counterexample :
    ((handleFollowUp "buy a TV" "more"
        (TransportResult.ok (JVal.jobj [("error", JVal.jstr "rate limited")]))
        initState).1).chatHistory.getLast? =
      some { role := Role.agent,
             content := JVal.jstr "Sorry, I encountered an error: rate limited" } ∧
    Role.agent ≠ Role.error :=
  ⟨rfl, by decide⟩

/-- C3 amended: a truthy-object reply with a truthy `error` field matching
none of the earlier dialect rules normalizes — under either turn's fallback
texts — to the message `Sorry, I encountered an error: ` followed by the
coerced error value, with no products; on the initial turn and on follow-up
turns alike the appended log entry carries the `agent` role (visually it is
a normal agent bubble), and the session-level transport-error flag is not
set: it remains `none` after the initial turn and is left unchanged by a
follow-up. -/
theorem C3_amended (d : JVal) (s t : SessionState) (q msg : String)
    (hq : jsTrim q ≠ "") (hmsg : jsTrim msg ≠ "")
    (hobj : isObjectType d = true) (htr : truthy d = true)
    (hns : matchesSuccess d = false) (hnl : matchesLegacy d = false)
    (hnr : truthy (jget d "response") = false)
    (herr : truthy (jget d "error") = true) :
    normalizeReply d initialFallbackMsg initialFallbackSum =
      (JVal.jstr ("Sorry, I encountered an error: " ++ interp (jget d "error")), none) ∧
    normalizeReply d followUpFallbackMsg followUpFallbackSum =
      (JVal.jstr ("Sorry, I encountered an error: " ++ interp (jget d "error")), none) ∧
    (handleInitialSearch q (TransportResult.ok d) s).1 =
      { chatHistory :=
          [{ role := Role.user, content := JVal.jstr q },
           { role := Role.agent,
             content := JVal.jstr ("Sorry, I encountered an error: " ++
               interp (jget d "error")) }],
        recommendations := none,
        sessionError := none,
        isProcessing := false } ∧
    (handleFollowUp q msg (TransportResult.ok d) t).1 =
      { chatHistory := t.chatHistory ++
          [{ role := Role.user, content := JVal.jstr msg },
           { role := Role.agent,
             content := JVal.jstr ("Sorry, I encountered an error: " ++
               interp (jget d "error")) }],
        recommendations := t.recommendations,
        sessionError := t.sessionError,
        isProcessing := false } := by
  have hstr : isStr d = false := by cases d <;> simp_all [isStr, isObjectType]
  have hn : ∀ fbM fbS : String, normalizeReply d fbM fbS =
      (JVal.jstr ("Sorry, I encountered an error: " ++ interp (jget d "error")), none) := by
    intro fbM fbS
    simp [normalizeReply, hstr, htr, hobj, hns, hnl, hnr, herr]
  have hne : ("Sorry, I encountered an error: " ++ interp (jget d "error")) ≠ "" := by
    intro h
    have hl := congrArg String.length h
    rw [String.length_append] at hl
    have h0 : ("" : String).length = 0 := rfl
    have h31 : ("Sorry, I encountered an error: " : String).length = 31 := by decide
    omega
  have ht : truthy (JVal.jstr ("Sorry, I encountered an error: " ++
      interp (jget d "error"))) = true := by
    simp [truthy, hne]
  refine ⟨hn _ _, hn _ _, ?_, ?_⟩
  · simp [handleInitialSearch, hq, hn, jstrOr, ht]
  · simp [handleFollowUp, hmsg, hn]

/-- C3 witness: the `rate limited` example on both the initial turn (from a
fresh session) and a follow-up turn. -/
theorem C3_amended_witness :
    normalizeReply (JVal.jobj [("error", JVal.jstr "rate limited")])
        initialFallbackMsg initialFallbackSum =
      (JVal.jstr ("Sorry, I encountered an error: " ++
        interp (jget (JVal.jobj [("error", JVal.jstr "rate limited")]) "error")), none) ∧
    normalizeReply (JVal.jobj [("error", JVal.jstr "rate limited")])
        followUpFallbackMsg followUpFallbackSum =
      (JVal.jstr ("Sorry, I encountered an error: " ++
        interp (jget (JVal.jobj [("error", JVal.jstr "rate limited")]) "error")), none) ∧
    (handleInitialSearch "buy a TV"
        (TransportResult.ok (JVal.jobj [("error", JVal.jstr "rate limited")]))
        initState).1 =
      { chatHistory :=
          [{ role := Role.user, content := JVal.jstr "buy a TV" },
           { role := Role.agent,
             content := JVal.jstr ("Sorry, I encountered an error: " ++
               interp (jget (JVal.jobj [("error", JVal.jstr "rate limited")]) "error")) }],
        recommendations := none,
        sessionError := none,
        isProcessing := false } ∧
    (handleFollowUp "buy a TV" "more"
        (TransportResult.ok (JVal.jobj [("error", JVal.jstr "rate limited")]))
        initState).1 =
      { chatHistory := initState.chatHistory ++
          [{ role := Role.user, content := JVal.jstr "more" },
           { role := Role.agent,
             content := JVal.jstr ("Sorry, I encountered an error: " ++
               interp (jget (JVal.jobj [("error", JVal.jstr "rate limited")]) "error")) }],
        recommendations := initState.recommendations,
        sessionError := initState.sessionError,
        isProcessing := false } :=
  C3_amended (JVal.jobj [("error", JVal.jstr "rate limited")]) initState initState
    "buy a TV" "more" (by decide) (by decide) (by decide) (by decide) (by decide)
    (by decide) (by decide) (by decide)

/-- C2 counterexample: after a successful initial turn, a follow-up turn
whose transport call fails appends the error message `Sorry, I encountered
an error. Please try again.` — a different string from the initial turn's
fallback — and leaves the session-level error flag unset. -/
theorem C2_counterexample :
    ((handleFollowUp "buy a TV" "more" TransportResult.failure
        (handleInitialSearch "buy a TV" (TransportResult.ok (JVal.jstr "hello"))
          initState).1).1).sessionError = none ∧
    ((handleFollowUp "buy a TV" "more" TransportResult.failure
        (handleInitialSearch "buy a TV" (TransportResult.ok (JVal.jstr "hello"))
          initState).1).1).chatHistory.getLast? =
      some { role := Role.error, content := JVal.jstr followUpErrorText } ∧
    initialErrorText ≠ followUpErrorText :=
  ⟨rfl, rfl, by decide⟩

/-- C2 amended: a transport failure appends exactly one error-role message,
but with turn-dependent fixed text: the initial turn appends
`initialErrorText` (after the session-start reset) and sets the
session-level error flag to it, while a follow-up turn appends the different
fixed `followUpErrorText`, leaves the error flag unchanged (it is not set),
and leaves all previously appended messages and the displayed product set
untouched. -/
theorem C2_amended (q msg : String) (s t : SessionState)
    (hq : jsTrim q ≠ "") (hmsg : jsTrim msg ≠ "") :
    (handleInitialSearch q TransportResult.failure s).1 =
      { chatHistory := [{ role := Role.user, content := JVal.jstr q },
                        { role := Role.error, content := JVal.jstr initialErrorText }],
        recommendations := none,
        sessionError := some initialErrorText,
        isProcessing := false } ∧
    (handleFollowUp q msg TransportResult.failure t).1 =
      { chatHistory := t.chatHistory ++
          [{ role := Role.user, content := JVal.jstr msg },
           { role := Role.error, content := JVal.jstr followUpErrorText }],
        recommendations := t.recommendations,
        sessionError := t.sessionError,
        isProcessing := false } ∧
    initialErrorText ≠ followUpErrorText := by
  refine ⟨?_, ?_, by decide⟩
  · simp [handleInitialSearch, hq]
  · simp [handleFollowUp, hmsg]

/-- C2 witness: concrete failing turns from concrete states. -/
theorem C2_amended_witness :
    (handleInitialSearch "buy a TV" TransportResult.failure initState).1 =
      { chatHistory := [{ role := Role.user, content := JVal.jstr "buy a TV" },
                        { role := Role.error, content := JVal.jstr initialErrorText }],
        recommendations := none,
        sessionError := some initialErrorText,
        isProcessing := false } ∧
    (handleFollowUp "buy a TV" "more" TransportResult.failure initState).1 =
      { chatHistory := initState.chatHistory ++
          [{ role := Role.user, content := JVal.jstr "more" },
           { role := Role.error, content := JVal.jstr followUpErrorText }],
        recommendations := initState.recommendations,
        sessionError := initState.sessionError,
        isProcessing := false } ∧
    initialErrorText ≠ followUpErrorText :=
  C2_amended "buy a TV" "more" initState initState (by decide) (by decide)

/-- C8 counterexample: on a follow-up turn the bare empty-string reply is
appended as an agent message whose content is the empty string — an
agent-role log entry with empty content. -/
theorem C8_counterexample :
    ((handleFollowUp "buy a TV" "more" (TransportResult.ok (JVal.jstr ""))
        initState).1).chatHistory.getLast? =
      some { role := Role.agent, content := JVal.jstr "" } ∧
    truthy (JVal.jstr "") = false :=
  ⟨rfl, rfl⟩

/-- C8 amended: on the initial turn every appended `agent`/`error` message
has truthy (in particular non-empty-string) content for every transport
outcome and reply — the initial turn guards its agent message with the
`initialAgentFallback` — and error-role messages appended on follow-up
failures carry the fixed non-empty `followUpErrorText`; but a follow-up
agent message carries the normalized message verbatim, which can be the
empty string (see the counterexample). -/
theorem C8_amended (q msg : String) (tr : TransportResult) (s t : SessionState)
    (hq : jsTrim q ≠ "") (hmsg : jsTrim msg ≠ "") :
    (∀ m ∈ ((handleInitialSearch q tr s).1).chatHistory,
        m.role = Role.agent ∨ m.role = Role.error → truthy m.content = true) ∧
    ((handleFollowUp q msg TransportResult.failure t).1).chatHistory =
      t.chatHistory ++
        [{ role := Role.user, content := JVal.jstr msg },
         { role := Role.error, content := JVal.jstr followUpErrorText }] ∧
    truthy (JVal.jstr followUpErrorText) = true := by
  refine ⟨?_, by simp [handleFollowUp, hmsg], by decide⟩
  have hfb : ∀ v : JVal, truthy (jstrOr v initialAgentFallback) = true := by
    intro v
    by_cases hv : truthy v = true
    · simp [jstrOr, hv]
    · simp [jstrOr, hv]
      decide
  cases tr with
  | ok d =>
    intro m hm hrole
    have hch : ((handleInitialSearch q (TransportResult.ok d) s).1).chatHistory =
        [{ role := Role.user, content := JVal.jstr q },
         { role := Role.agent,
           content := jstrOr (normalizeReply d initialFallbackMsg initialFallbackSum).1
             initialAgentFallback }] := by
      cases h2 : (normalizeReply d initialFallbackMsg initialFallbackSum).2 <;>
        simp [handleInitialSearch, hq, h2]
    rw [hch] at hm
    simp only [List.mem_cons, List.not_mem_nil, or_false] at hm
    rcases hm with h | h
    · subst h
      exact absurd hrole (by simp)
    · subst h
      exact hfb _
  | failure =>
    intro m hm hrole
    have hch : ((handleInitialSearch q TransportResult.failure s).1).chatHistory =
        [{ role := Role.user, content := JVal.jstr q },
         { role := Role.error, content := JVal.jstr initialErrorText }] := by
      simp [handleInitialSearch, hq]
    rw [hch] at hm
    simp only [List.mem_cons, List.not_mem_nil, or_false] at hm
    rcases hm with h | h
    · subst h
      exact absurd hrole (by simp)
    · subst h
      decide

/-- C8 witness: concrete initial turn (bare string reply) and a concrete
failing follow-up. -/
theorem C8_amended_witness :
    (∀ m ∈ ((handleInitialSearch "buy a TV" (TransportResult.ok (JVal.jstr "hello"))
        initState).1).chatHistory,
        m.role = Role.agent ∨ m.role = Role.error → truthy m.content = true) ∧
    ((handleFollowUp "buy a TV" "more" TransportResult.failure initState).1).chatHistory =
      initState.chatHistory ++
        [{ role := Role.user, content := JVal.jstr "more" },
         { role := Role.error, content := JVal.jstr followUpErrorText }] ∧
    truthy (JVal.jstr followUpErrorText) = true :=
  C8_amended "buy a TV" "more" (TransportResult.ok (JVal.jstr "hello")) initState initState
    (by decide) (by decide)

/-- C1 counterexample: in a session whose initial turn failed (one `error`
message in the log), the context dispatched with turn 2 maps the error
message to role `assistant` and keeps it, so the dispatched `chat_history`
has two entries while the spec's error-dropping mapping of the same log has
one — the dispatched history is not the spec's history. -/
theorem C1_counterexample :
    (handleFollowUp "buy a TV" "try again" TransportResult.failure
        (handleInitialSearch "buy a TV" TransportResult.failure initState).1).2 =
      some { original_query := "buy a TV",
             chat_history :=
               [{ role := "user", content := JVal.jstr "buy a TV" },
                { role := "assistant", content := JVal.jstr initialErrorText }],
             current_products := JVal.jarr [] } ∧
    specChatHistory
        ((handleInitialSearch "buy a TV" TransportResult.failure initState).1).chatHistory =
      [{ role := "user", content := JVal.jstr "buy a TV" }] ∧
    toChatHistory
        ((handleInitialSearch "buy a TV" TransportResult.failure initState).1).chatHistory ≠
      specChatHistory
        ((handleInitialSearch "buy a TV" TransportResult.failure initState).1).chatHistory := by
  exact ⟨rfl, rfl, fun h => absurd (congrArg List.length h) (by decide)⟩

/-- C1 amended: the context dispatched with every follow-up turn has
`original_query` equal to the session's initial query, `chat_history` equal
to all messages of the preceding turns mapped by role `user` to `user` and
every other role — `agent` and `error` alike — to `assistant` (error
messages are not dropped), and `current_products` equal to the product set
as of the end of the previous turn (the empty array if none). -/
theorem C1_amended (q msg : String) (first : TransportResult)
    (rest : List (String × TransportResult)) (r : TransportResult)
    (hmsg : jsTrim msg ≠ "") :
    (handleFollowUp q msg r (runSession q first rest)).2 =
      some { original_query := q,
             chat_history := toChatHistory (runSession q first rest).chatHistory,
             current_products := currentProductsOf (runSession q first rest).recommendations } ∧
    toChatHistory (runSession q first rest).chatHistory =
      (runSession q first rest).chatHistory.map (fun m =>
        { role := if m.role = Role.user then "user" else "assistant",
          content := m.content }) ∧
    ((runSession q first rest).recommendations = none →
      currentProductsOf (runSession q first rest).recommendations = JVal.jarr []) := by
  refine ⟨?_, rfl, fun h => by simp [currentProductsOf, h]⟩
  cases r <;> simp [handleFollowUp, hmsg]

/-- C1 witness: a concrete two-failure session and a concrete third turn. -/
theorem C1_amended_witness :
    (handleFollowUp "buy a TV" "cheaper" TransportResult.failure
        (runSession "buy a TV" TransportResult.failure [("try again", TransportResult.failure)])).2 =
      some { original_query := "buy a TV",
             chat_history :=
               toChatHistory (runSession "buy a TV" TransportResult.failure
                 [("try again", TransportResult.failure)]).chatHistory,
             current_products :=
               currentProductsOf (runSession "buy a TV" TransportResult.failure
                 [("try again", TransportResult.failure)]).recommendations } ∧
    toChatHistory (runSession "buy a TV" TransportResult.failure
        [("try again", TransportResult.failure)]).chatHistory =
      (runSession "buy a TV" TransportResult.failure
        [("try again", TransportResult.failure)]).chatHistory.map (fun m =>
          { role := if m.role = Role.user then "user" else "assistant",
            content := m.content }) ∧
    ((runSession "buy a TV" TransportResult.failure
        [("try again", TransportResult.failure)]).recommendations = none →
      currentProductsOf (runSession "buy a TV" TransportResult.failure
        [("try again", TransportResult.failure)]).recommendations = JVal.jarr []) :=
  C1_amended "buy a TV" "cheaper" TransportResult.failure
    [("try again", TransportResult.failure)] TransportResult.failure (by decide)
